import Mathlib

/-!
Almond Bread GL: the GLFW host program (`GLFW/src/main.c`).

A shallow embedding of the host-side code of the Mandelbrot viewer.

Conventions of the embedding:
* C `int` (and `GLint`, `GLsizei`) values are integers (`Int`) with exact arithmetic; the
  `long` that `ftell` returns is narrowed to the 32-bit `int` by `long_to_int`;
  `GLuint` handles are natural numbers;
* C `double` values are elements of a linearly ordered field `α`, so the same definitions
  run on the rationals and are reasoned about on the reals; the libm function `pow` is a
  parameter of `scroll_callback`;
* the arrays `window_size[2]`, `cursor_position[2]`, `position[2]` are pairs and
  `hue_texture_handles[4]` is a function on `Fin 4`;
* results of calls into the C library and into OpenGL are inputs (records of outcomes);
  `exit(code)` is the error result `Except.error code`;
* `check_error` does nothing, because `DEBUG` is not defined in the source.
-/

set_option linter.unusedVariables false

namespace AlmondBread

/-! ## Constants -/

/-- Lower limit of both coordinates of the position (`#define MIN_POSITION -3.0`). -/
def MIN_POSITION {α : Type} [LinearOrderedField α] : α := -3.0

/-- Upper limit of both coordinates of the position (`#define MAX_POSITION 3.0`). -/
def MAX_POSITION {α : Type} [LinearOrderedField α] : α := 3.0

/-- Lower limit of the scale (`#define MIN_SCALE 75.0`). -/
def MIN_SCALE {α : Type} [LinearOrderedField α] : α := 75.0

/-- Upper limit of the scale (`#define MAX_SCALE 100000000.0`). -/
def MAX_SCALE {α : Type} [LinearOrderedField α] : α := 100000000.0

/-- Lower limit of the iteration count (`#define MIN_ITERATIONS 2`). -/
def MIN_ITERATIONS : Int := 2

/-- Upper limit of the iteration count (`#define MAX_ITERATIONS 1000`). -/
def MAX_ITERATIONS : Int := 1000

/-- Scale factor of the mouse wheel (`#define MOUSE_WHEEL_FACTOR 0.25`). -/
def MOUSE_WHEEL_FACTOR {α : Type} [LinearOrderedField α] : α := 0.25

/-- Value of `GLFW_RELEASE` in `GLFW/glfw3.h`. -/
def GLFW_RELEASE : Int := 0

/-- Value of `GLFW_PRESS` in `GLFW/glfw3.h`. -/
def GLFW_PRESS : Int := 1

/-- Value of `GLFW_REPEAT` in `GLFW/glfw3.h`. -/
def GLFW_REPEAT : Int := 2

/-- Value of `GLFW_MOUSE_BUTTON_LEFT` in `GLFW/glfw3.h`. -/
def GLFW_MOUSE_BUTTON_LEFT : Int := 0

/-- Value of `GLFW_KEY_1` in `GLFW/glfw3.h`. -/
def GLFW_KEY_1 : Int := 49

/-- Value of `GLFW_KEY_2` in `GLFW/glfw3.h`. -/
def GLFW_KEY_2 : Int := 50

/-- Value of `GLFW_KEY_3` in `GLFW/glfw3.h`. -/
def GLFW_KEY_3 : Int := 51

/-- Value of `GLFW_KEY_4` in `GLFW/glfw3.h`. -/
def GLFW_KEY_4 : Int := 52

/-- Value of `GLFW_KEY_DOWN` in `GLFW/glfw3.h`. -/
def GLFW_KEY_DOWN : Int := 264

/-- Value of `GLFW_KEY_UP` in `GLFW/glfw3.h`. -/
def GLFW_KEY_UP : Int := 265

/-- Value of `GL_TRUE` in the OpenGL headers. -/
def GL_TRUE : Int := 1

/-- Value of `EXIT_FAILURE` in `stdlib.h`. -/
def EXIT_FAILURE : Int := 1

/-! ## The arithmetic helpers of the source -/

/-- `#define MIN(a, b) (((a) < (b)) ? (a) : (b))`. -/
def MIN {β : Type} [LinearOrder β] (a b : β) : β := if a < b then a else b

/-- `#define MAX(a, b) (((a) > (b)) ? (a) : (b))`. -/
def MAX {β : Type} [LinearOrder β] (a b : β) : β := if a > b then a else b

/-- `#define CLAMPED_POSITION(v) (MIN(MAX((v), MIN_POSITION), MAX_POSITION))`. -/
def CLAMPED_POSITION {α : Type} [LinearOrderedField α] (v : α) : α :=
  MIN (MAX v MIN_POSITION) MAX_POSITION

/-- `#define CLAMPED_SCALE(v) (MIN(MAX((v), MIN_SCALE), MAX_SCALE))`. -/
def CLAMPED_SCALE {α : Type} [LinearOrderedField α] (v : α) : α :=
  MIN (MAX v MIN_SCALE) MAX_SCALE

/-! ## The data model -/

/-- The shader program and its uniform locations (`shader_program_t`). -/
structure shader_program_t where
  handle : Nat
  gaussian_position_uniform : Int
  gaussian_half_frame_uniform : Int
  iterations_uniform : Int

/-- The user info (`user_info_t`), with `double` read as `α`. -/
structure user_info_t (α : Type) where
  shader_program : shader_program_t
  hue_texture_handles : Fin 4 → Nat
  window_size : Int × Int
  cursor_position : α × α
  is_panning : Int
  position : α × α
  scale : α
  iterations : Int

/-- The part of the OpenGL context the host code writes to after setup: the texture bound to
`GL_TEXTURE_2D`, the level-0 image (width, height) of every texture, and the viewport. -/
structure gl_context where
  texture_binding_2d : Nat
  tex_image_2d : Nat → Option (Int × Int)
  viewport : Int × Int × Int × Int

/-- The state the callbacks act on: the user info stored in the window and the GL context. -/
structure program_state (α : Type) where
  user_info : user_info_t α
  gl : gl_context

/-! ## Texture binding and the callbacks -/

/-- `bind_texture`: `glBindTexture(GL_TEXTURE_2D, texture_handle)`. -/
def bind_texture (gl : gl_context) (texture_handle : Nat) : gl_context :=
  { gl with texture_binding_2d := texture_handle }

/-- `framebuffer_size_callback`: `glViewport(0, 0, width, height)`. -/
def framebuffer_size_callback {α : Type} (s : program_state α) (width height : Int) :
    program_state α :=
  { s with gl := { s.gl with viewport := (0, 0, width, height) } }

/-- `window_size_callback`: stores the new width and height. -/
def window_size_callback {α : Type} (s : program_state α) (width height : Int) :
    program_state α :=
  { s with user_info := { s.user_info with window_size := (width, height) } }

/-- `key_callback`: the `switch (key)` of the source; `scancode`, `action` and `mods` are
not read. -/
def key_callback {α : Type} (s : program_state α) (key scancode action mods : Int) :
    program_state α :=
  if key = GLFW_KEY_UP then
    { s with user_info :=
        { s.user_info with iterations := MIN (s.user_info.iterations + 10) MAX_ITERATIONS } }
  else if key = GLFW_KEY_DOWN then
    { s with user_info :=
        { s.user_info with iterations := MAX (s.user_info.iterations - 10) MIN_ITERATIONS } }
  else if key = GLFW_KEY_1 then
    { s with gl := bind_texture s.gl (s.user_info.hue_texture_handles 0) }
  else if key = GLFW_KEY_2 then
    { s with gl := bind_texture s.gl (s.user_info.hue_texture_handles 1) }
  else if key = GLFW_KEY_3 then
    { s with gl := bind_texture s.gl (s.user_info.hue_texture_handles 2) }
  else if key = GLFW_KEY_4 then
    { s with gl := bind_texture s.gl (s.user_info.hue_texture_handles 3) }
  else
    s

/-- `mouse_button_callback`: the left button sets `is_panning` to `(action == GLFW_PRESS)`. -/
def mouse_button_callback {α : Type} (s : program_state α) (button action mods : Int) :
    program_state α :=
  if button = GLFW_MOUSE_BUTTON_LEFT then
    { s with user_info :=
        { s.user_info with is_panning := if action = GLFW_PRESS then 1 else 0 } }
  else
    s

/-- `cursor_pos_callback`: while panning, moves the position against the cursor motion; always
saves the new cursor position. -/
def cursor_pos_callback {α : Type} [LinearOrderedField α] (s : program_state α)
    (xoffset yoffset : α) : program_state α :=
  let u := s.user_info
  let position : α × α :=
    if u.is_panning ≠ 0 then
      (CLAMPED_POSITION (u.position.1 - ((xoffset - u.cursor_position.1) / u.scale)),
       CLAMPED_POSITION (u.position.2 + ((yoffset - u.cursor_position.2) / u.scale)))
    else
      u.position
  { s with user_info := { u with position := position, cursor_position := (xoffset, yoffset) } }

/-- `scroll_callback`: rescales around the cursor; `pow` is the libm function. -/
def scroll_callback {α : Type} [LinearOrderedField α] (pow : α → α → α) (s : program_state α)
    (xoffset yoffset : α) : program_state α :=
  let u := s.user_info
  let delta_x := u.cursor_position.1 - (0.5 * (u.window_size.1 : α))
  let delta_y := u.cursor_position.2 - (0.5 * (u.window_size.2 : α))
  let center_x := u.position.1 + (delta_x / u.scale)
  let center_y := u.position.2 - (delta_y / u.scale)
  let scale := CLAMPED_SCALE (pow 2 (MOUSE_WHEEL_FACTOR * yoffset) * u.scale)
  { s with user_info :=
      { u with
        scale := scale
        position := (CLAMPED_POSITION (center_x - (delta_x / scale)),
                     CLAMPED_POSITION (center_y + (delta_y / scale))) } }

/-! ## Event sequences -/

/-- One call of a registered window callback, with its arguments. -/
inductive event (α : Type) where
  | framebuffer_size (width height : Int)
  | window_size (width height : Int)
  | key (key scancode action mods : Int)
  | mouse_button (button action mods : Int)
  | cursor_pos (xoffset yoffset : α)
  | scroll (xoffset yoffset : α)

/-- Dispatch of one event to its callback. -/
def step {α : Type} [LinearOrderedField α] (pow : α → α → α) (s : program_state α) :
    event α → program_state α
  | .framebuffer_size w h => framebuffer_size_callback s w h
  | .window_size w h => window_size_callback s w h
  | .key k sc a m => key_callback s k sc a m
  | .mouse_button b a m => mouse_button_callback s b a m
  | .cursor_pos x y => cursor_pos_callback s x y
  | .scroll x y => scroll_callback pow s x y

/-- The state after a sequence of events, oldest first. -/
def run {α : Type} [LinearOrderedField α] (pow : α → α → α) (s : program_state α)
    (evs : List (event α)) : program_state α :=
  evs.foldl (step pow) s

/-- The user info as `main` leaves it when the render loop starts: the fields `main` assigns,
the shader program and texture handles produced by setup, and the cursor position, which `main`
does not assign. -/
def initial_user_info {α : Type} [LinearOrderedField α] (shader_program : shader_program_t)
    (hue_texture_handles : Fin 4 → Nat) (cursor_position : α × α) : user_info_t α :=
  { shader_program := shader_program
    hue_texture_handles := hue_texture_handles
    window_size := (800, 600)
    cursor_position := cursor_position
    is_panning := 0
    position := (0, 0)
    scale := MIN_SCALE
    iterations := 500 }

/-- The state when the render loop starts: `main` has bound the first hue texture. -/
def initial_state {α : Type} [LinearOrderedField α] (shader_program : shader_program_t)
    (hue_texture_handles : Fin 4 → Nat) (cursor_position : α × α) (gl : gl_context) :
    program_state α :=
  { user_info := initial_user_info shader_program hue_texture_handles cursor_position
    gl := bind_texture gl (hue_texture_handles 0) }

/-! ## The frame renderer -/

/-- The values `render_frame` hands to the shader: the arguments of the two `glUniform2f`
calls and of the `glUniform1ui` call (`GLfloat` read as `α`, `GLuint` as a 32-bit value). -/
structure frame_uniforms (α : Type) where
  gaussian_position : α × α
  gaussian_half_frame : α × α
  iterations : Nat

/-- `render_frame`: the uniforms of one frame; the half frame is half the window size divided
by the scale. -/
def render_frame {α : Type} [LinearOrderedField α] (u : user_info_t α) : frame_uniforms α :=
  { gaussian_position := (u.position.1, u.position.2)
    gaussian_half_frame :=
      ((0.5 * (u.window_size.1 : α)) / u.scale, (0.5 * (u.window_size.2 : α)) / u.scale)
    iterations := (u.iterations % 4294967296).toNat }

/-! ## Setup: files, shaders, textures -/

/-- The conversion of a `long` to the 32-bit `int`, as in `int file_length = ftell(file)`:
values from -2147483648 to 2147483647 are kept, all others wrap around modulo 2 ^ 32. -/
def long_to_int (x : Int) : Int :=
  (x + 2147483648) % 4294967296 - 2147483648

/-- The outcomes of the C library calls `read_all_bytes` makes for one file path: whether
`fopen` returned a file, the return value of `fseek(file, 0, SEEK_END)`, the `long` that
`ftell` returns (the length of the file), whether `malloc` returned a buffer, and the number
of bytes `fread` reports. -/
structure file_outcome where
  fopen_ok : Bool
  fseek_result : Int
  ftell_result : Int
  malloc_ok : Bool
  fread_result : Int

/-- `read_all_bytes`: the returned `buffer_length`, or the exit code. -/
def read_all_bytes (f : file_outcome) (insert_trailing_zero : Int) : Except Int Int :=
  if f.fopen_ok = false then
    .error EXIT_FAILURE
  else if f.fseek_result ≠ 0 then
    .error EXIT_FAILURE
  else
    let file_length := long_to_int f.ftell_result
    let buffer_length := if insert_trailing_zero ≠ 0 then file_length + 1 else file_length
    if f.malloc_ok = false then
      .error EXIT_FAILURE
    else if f.fread_result ≠ file_length then
      .error EXIT_FAILURE
    else
      .ok buffer_length

/-- `create_shader`: reads the source with a trailing zero, then checks `GL_COMPILE_STATUS`;
`shader_handle` is the result of `glCreateShader` and `compilation_success` the value
`glGetShaderiv` stores. -/
def create_shader (f : file_outcome) (shader_handle : Nat) (compilation_success : Int) :
    Except Int Nat :=
  match read_all_bytes f 1 with
  | .error code => .error code
  | .ok _ =>
    if compilation_success ≠ GL_TRUE then
      .error EXIT_FAILURE
    else
      .ok shader_handle

/-- The outcomes of the calls `init_shader_program` makes: the two shader files with their
handles and compile statuses, the program handle, the link status, and the four locations
returned by `glGetUniformLocation`. -/
structure shader_setup_outcome where
  vertex_file : file_outcome
  vertex_shader_handle : Nat
  vertex_compilation_success : Int
  fragment_file : file_outcome
  fragment_shader_handle : Nat
  fragment_compilation_success : Int
  program_handle : Nat
  linking_success : Int
  gaussian_position_location : Int
  gaussian_half_frame_location : Int
  iterations_location : Int
  hue_texture_location : Int

/-- `init_shader_program`: the filled-in `shader_program_t`, or the exit code. -/
def init_shader_program (o : shader_setup_outcome) : Except Int shader_program_t :=
  match create_shader o.vertex_file o.vertex_shader_handle o.vertex_compilation_success with
  | .error code => .error code
  | .ok _ =>
    match create_shader o.fragment_file o.fragment_shader_handle
        o.fragment_compilation_success with
    | .error code => .error code
    | .ok _ =>
      if o.linking_success ≠ GL_TRUE then
        .error EXIT_FAILURE
      else if o.gaussian_position_location < 0 then
        .error EXIT_FAILURE
      else if o.gaussian_half_frame_location < 0 then
        .error EXIT_FAILURE
      else if o.iterations_location < 0 then
        .error EXIT_FAILURE
      else if o.hue_texture_location < 0 then
        .error EXIT_FAILURE
      else
        .ok { handle := o.program_handle
              gaussian_position_uniform := o.gaussian_position_location
              gaussian_half_frame_uniform := o.gaussian_half_frame_location
              iterations_uniform := o.iterations_location }

/-- `glTexImage2D(GL_TEXTURE_2D, 0, GL_RGBA8, width, height, ...)`: gives the texture bound to
`GL_TEXTURE_2D` a level-0 image of the given width and height. -/
def glTexImage2D (gl : gl_context) (width height : Int) : gl_context :=
  let image : Option (Int × Int) := some (width, height)
  { gl with tex_image_2d := Function.update gl.tex_image_2d gl.texture_binding_2d image }

/-- `create_hue_texture`: reads the file without trailing zero and uploads it as an image of
`length / 4` pixels in one row; `texture_handle` is the name `glGenTextures` produces. The
division is the truncating division of C. -/
def create_hue_texture (f : file_outcome) (texture_handle : Nat) (gl : gl_context) :
    Except Int (Nat × gl_context) :=
  match read_all_bytes f 0 with
  | .error code => .error code
  | .ok length =>
    let pixels_count := Int.tdiv length 4
    let gl := bind_texture gl texture_handle
    let gl := glTexImage2D gl pixels_count 1
    .ok (texture_handle, gl)

/-- `init_textures`: creates the four hue textures in order (fire, ice, ash, psychedelic). -/
def init_textures (files : Fin 4 → file_outcome) (texture_handles : Fin 4 → Nat)
    (gl : gl_context) : Except Int ((Fin 4 → Nat) × gl_context) :=
  match create_hue_texture (files 0) (texture_handles 0) gl with
  | .error code => .error code
  | .ok (h0, gl) =>
    match create_hue_texture (files 1) (texture_handles 1) gl with
    | .error code => .error code
    | .ok (h1, gl) =>
      match create_hue_texture (files 2) (texture_handles 2) gl with
      | .error code => .error code
      | .ok (h2, gl) =>
        match create_hue_texture (files 3) (texture_handles 3) gl with
        | .error code => .error code
        | .ok (h3, gl) => .ok (![h0, h1, h2, h3], gl)

/-- The outcomes of the external calls `main` makes before the render loop. -/
structure setup_outcome where
  glfwInit_result : Int
  window_ok : Bool
  framebuffer_size : Int × Int
  shaders : shader_setup_outcome
  texture_files : Fin 4 → file_outcome
  texture_handles : Fin 4 → Nat

/-- The body of `main` up to the render loop: the state the loop starts in, or the exit code
when a step of the setup terminates the process. -/
def main_until_render_loop {α : Type} [LinearOrderedField α] (o : setup_outcome)
    (cursor_position : α × α) (gl : gl_context) : Except Int (program_state α) :=
  if o.glfwInit_result = 0 then
    .error EXIT_FAILURE
  else if o.window_ok = false then
    .error EXIT_FAILURE
  else
    let gl := { gl with viewport := (0, 0, o.framebuffer_size.1, o.framebuffer_size.2) }
    match init_shader_program o.shaders with
    | .error code => .error code
    | .ok shader_program =>
      match init_textures o.texture_files o.texture_handles gl with
      | .error code => .error code
      | .ok (hue_texture_handles, gl) =>
        .ok (initial_state shader_program hue_texture_handles cursor_position gl)

/-! ## Notions used to state the properties -/

/-- The clamp of `v` to the interval from `lo` to `hi`. -/
def clamp {β : Type} [LinearOrder β] (v lo hi : β) : β :=
  if v < lo then lo else if hi < v then hi else v

/-- The iteration count lies in the range `[2, 1000]`. -/
def iterations_in_range {α : Type} (s : program_state α) : Prop :=
  2 ≤ s.user_info.iterations ∧ s.user_info.iterations ≤ 1000

/-- The conditions under which reading a file ends the process: the file cannot be opened,
seeking to its end fails, the buffer allocation fails, or fewer bytes than the file length
(the `int` that `read_all_bytes` holds in `file_length`) are read. -/
def file_read_fails (f : file_outcome) : Prop :=
  f.fopen_ok = false ∨ f.fseek_result ≠ 0 ∨ f.malloc_ok = false ∨
    f.fread_result < long_to_int f.ftell_result

instance (f : file_outcome) : Decidable (file_read_fails f) := by
  unfold file_read_fails
  infer_instance

/-- The tests of `read_all_bytes` that lead to `exit`, read off the code: the last one compares
the count returned by `fread` with `file_length` for inequality. -/
def file_read_exits (f : file_outcome) : Prop :=
  f.fopen_ok = false ∨ f.fseek_result ≠ 0 ∨ f.malloc_ok = false ∨
    f.fread_result ≠ long_to_int f.ftell_result

instance (f : file_outcome) : Decidable (file_read_exits f) := by
  unfold file_read_exits
  infer_instance

/-- The conditions under which the shader setup ends the process: reading one of the two
shader files fails, a compile status is not true, the link status is not true, or one of the
four uniforms has a negative location. -/
def shader_setup_fails (o : shader_setup_outcome) : Prop :=
  file_read_fails o.vertex_file ∨ o.vertex_compilation_success ≠ GL_TRUE ∨
    file_read_fails o.fragment_file ∨ o.fragment_compilation_success ≠ GL_TRUE ∨
    o.linking_success ≠ GL_TRUE ∨ o.gaussian_position_location < 0 ∨
    o.gaussian_half_frame_location < 0 ∨ o.iterations_location < 0 ∨
    o.hue_texture_location < 0

instance (o : shader_setup_outcome) : Decidable (shader_setup_fails o) := by
  unfold shader_setup_fails
  infer_instance

/-- Position and scale are within their limits: the scale in [75, 100000000] and both
coordinates of the position in [-3, 3]. -/
def view_in_limits {α : Type} [LinearOrderedField α] (s : program_state α) : Prop :=
  (75 ≤ s.user_info.scale ∧ s.user_info.scale ≤ 100000000) ∧
    (-3 ≤ s.user_info.position.1 ∧ s.user_info.position.1 ≤ 3) ∧
    (-3 ≤ s.user_info.position.2 ∧ s.user_info.position.2 ≤ 3)

/-- The point of the Gaussian plane that is shown under the cursor. -/
def plane_point_under_cursor {α : Type} [LinearOrderedField α] (u : user_info_t α) : α × α :=
  (u.position.1 + (u.cursor_position.1 - 0.5 * (u.window_size.1 : α)) / u.scale,
   u.position.2 - (u.cursor_position.2 - 0.5 * (u.window_size.2 : α)) / u.scale)

/-- A sequence of `mouse_button_callback` calls, each given as (button, action, mods), applied
oldest first. -/
def run_mouse_buttons {α : Type} (s : program_state α) (evs : List (Int × Int × Int)) :
    program_state α :=
  evs.foldl (fun s e => mouse_button_callback s e.1 e.2.1 e.2.2) s

/-- In the sequence the left-button events alternate between press and release; `held` tells
whether the left button is down when the sequence starts, so the next left-button event is
a release when `held` and a press otherwise. Events of other buttons are not constrained. -/
def left_alternates (held : Bool) : List (Int × Int × Int) → Bool
  | [] => true
  | (button, action, _) :: rest =>
    if button = GLFW_MOUSE_BUTTON_LEFT then
      decide (action = if held then GLFW_RELEASE else GLFW_PRESS) && left_alternates (!held) rest
    else
      left_alternates held rest

/-- The keys 1 to 4, indexed from 0. -/
def digit_key : Fin 4 → Int := ![GLFW_KEY_1, GLFW_KEY_2, GLFW_KEY_3, GLFW_KEY_4]

/-! ## Concrete inputs for the examples -/

/-- A GL context with nothing uploaded. -/
def example_gl : gl_context :=
  { texture_binding_2d := 0, tex_image_2d := fun _ => none, viewport := (0, 0, 800, 600) }

/-- A linked shader program with its three uniforms. -/
def example_shader_program : shader_program_t :=
  { handle := 3, gaussian_position_uniform := 0, gaussian_half_frame_uniform := 1,
    iterations_uniform := 2 }

/-- Four texture names. -/
def example_handles : Fin 4 → Nat := ![1, 2, 3, 4]

/-- The state at the start of the render loop, with the cursor at the right edge of the
window, half way down. -/
def example_state {α : Type} [LinearOrderedField α] : program_state α :=
  initial_state example_shader_program example_handles (800, 300) example_gl

/-- The example state after dragging the view 225 pixels to the left: left button pressed,
cursor moved to (575, 300), button released, cursor moved back to (800, 300). -/
def example_panned_state {α : Type} [LinearOrderedField α] (pow : α → α → α) :
    program_state α :=
  run pow example_state
    [.mouse_button GLFW_MOUSE_BUTTON_LEFT GLFW_PRESS 0, .cursor_pos 575 300,
     .mouse_button GLFW_MOUSE_BUTTON_LEFT GLFW_RELEASE 0, .cursor_pos 800 300]

/-- A file of 10 bytes on which every library call succeeds. -/
def example_file : file_outcome :=
  { fopen_ok := true, fseek_result := 0, ftell_result := 10, malloc_ok := true,
    fread_result := 10 }

/-- A file of 10 bytes of which `fread` delivers only 6. -/
def example_short_file : file_outcome :=
  { fopen_ok := true, fseek_result := 0, ftell_result := 10, malloc_ok := true,
    fread_result := 6 }

/-- A file of 2 ^ 32 + 8 bytes: `ftell` reports 4294967304, and `fread`, asked for the 8 bytes
that `file_length` holds after the narrowing, delivers 8. -/
def example_huge_file : file_outcome :=
  { fopen_ok := true, fseek_result := 0, ftell_result := 4294967304, malloc_ok := true,
    fread_result := 8 }

/-- Outcomes of a shader setup in which every call succeeds. -/
def example_shader_setup : shader_setup_outcome :=
  { vertex_file := example_file, vertex_shader_handle := 1, vertex_compilation_success := 1,
    fragment_file := example_file, fragment_shader_handle := 2,
    fragment_compilation_success := 1, program_handle := 3, linking_success := 1,
    gaussian_position_location := 0, gaussian_half_frame_location := 1,
    iterations_location := 2, hue_texture_location := 3 }

/-- Outcomes of a run of `main` in which every call of the setup succeeds. -/
def example_setup : setup_outcome :=
  { glfwInit_result := 1, window_ok := true, framebuffer_size := (800, 600),
    shaders := example_shader_setup, texture_files := fun _ => example_file,
    texture_handles := example_handles }

/-- Outcomes of a run of `main` in which the fragment shader file is read short. -/
def example_failing_setup : setup_outcome :=
  { example_setup with
    shaders := { example_shader_setup with fragment_file := example_short_file } }

/-! ## Lemmas on the arithmetic helpers -/

/-- `MIN` is the minimum. -/
theorem MIN_eq_min {β : Type} [LinearOrder β] (a b : β) : MIN a b = min a b := by
  unfold MIN
  split_ifs with h
  · exact (min_eq_left h.le).symm
  · exact (min_eq_right (not_lt.mp h)).symm

/-- `MAX` is the maximum. -/
theorem MAX_eq_max {β : Type} [LinearOrder β] (a b : β) : MAX a b = max a b := by
  unfold MAX
  split_ifs with h
  · exact (max_eq_left (le_of_lt h)).symm
  · exact (max_eq_right (not_lt.mp h)).symm

/-- For `lo ≤ hi` the clamp is the minimum with `hi` of the maximum with `lo`. -/
theorem clamp_eq_min_max {β : Type} [LinearOrder β] (v lo hi : β) (h : lo ≤ hi) :
    clamp v lo hi = min (max v lo) hi := by
  unfold clamp
  split_ifs with h1 h2
  · rw [max_eq_right h1.le, min_eq_left h]
  · rw [max_eq_left (h.trans h2.le), min_eq_right h2.le]
  · rw [max_eq_left (not_lt.mp h1), min_eq_left (not_lt.mp h2)]

/-- `CLAMPED_POSITION` is the clamp to [-3, 3]. -/
theorem CLAMPED_POSITION_eq_clamp {α : Type} [LinearOrderedField α] (v : α) :
    CLAMPED_POSITION v = clamp v (-3) 3 := by
  rw [clamp_eq_min_max v (-3) 3 (by norm_num)]
  simp only [CLAMPED_POSITION, MIN_eq_min, MAX_eq_max, MIN_POSITION, MAX_POSITION]
  norm_num

/-- `CLAMPED_SCALE` is the clamp to [75, 100000000]. -/
theorem CLAMPED_SCALE_eq_clamp {α : Type} [LinearOrderedField α] (v : α) :
    CLAMPED_SCALE v = clamp v 75 100000000 := by
  rw [clamp_eq_min_max v 75 100000000 (by norm_num)]
  simp only [CLAMPED_SCALE, MIN_eq_min, MAX_eq_max, MIN_SCALE, MAX_SCALE]
  norm_num

/-! ## The iteration count -/

/-- The iteration count after `key_callback`, by key. -/
theorem key_callback_iterations {α : Type} (s : program_state α)
    (key scancode action mods : Int) :
    (key_callback s key scancode action mods).user_info.iterations =
      if key = GLFW_KEY_UP then min (s.user_info.iterations + 10) 1000
      else if key = GLFW_KEY_DOWN then max (s.user_info.iterations - 10) 2
      else s.user_info.iterations := by
  unfold key_callback
  split_ifs <;> simp [MIN_eq_min, MAX_eq_max, MAX_ITERATIONS, MIN_ITERATIONS]

/-- `key_callback` preserves the range of the iteration count. -/
theorem key_callback_keeps_range {α : Type} (s : program_state α)
    (key scancode action mods : Int) (h : iterations_in_range s) :
    iterations_in_range (key_callback s key scancode action mods) := by
  unfold iterations_in_range at *
  rw [key_callback_iterations]
  split_ifs <;> omega

/-- Every callback preserves the range of the iteration count. -/
theorem step_keeps_range {α : Type} [LinearOrderedField α] (pow : α → α → α)
    (s : program_state α) (e : event α) (h : iterations_in_range s) :
    iterations_in_range (step pow s e) := by
  cases e with
  | key k sc a m => exact key_callback_keeps_range s k sc a m h
  | mouse_button b a m =>
    show iterations_in_range (mouse_button_callback s b a m)
    unfold mouse_button_callback
    split_ifs <;> exact h
  | _ => exact h

/-- Every sequence of callbacks preserves the range of the iteration count. -/
theorem run_keeps_range {α : Type} [LinearOrderedField α] (pow : α → α → α)
    (evs : List (event α)) (s : program_state α) (h : iterations_in_range s) :
    iterations_in_range (run pow s evs) := by
  induction evs generalizing s with
  | nil => exact h
  | cons e evs ih => exact ih _ (step_keeps_range pow s e h)

/-- The initial iteration count, 500, is in range. -/
theorem initial_state_in_range {α : Type} [LinearOrderedField α]
    (shader_program : shader_program_t) (hue_texture_handles : Fin 4 → Nat)
    (cursor_position : α × α) (gl : gl_context) :
    iterations_in_range
      (initial_state shader_program hue_texture_handles cursor_position gl) := by
  constructor <;> simp [initial_state, initial_user_info]

/-- C1: `key_callback` keeps the iteration count within [2, 1000]: from any state whose count
lies in that range, any key, scancode, action and mods lead to a state whose count lies in it.
The initial state (count 500) is in the range, and so is every state reached from it by any
sequence of callbacks. -/
theorem iterations_stay_in_range {α : Type} [LinearOrderedField α] (pow : α → α → α)
    (s : program_state α) (key scancode action mods : Int) (h : iterations_in_range s)
    (shader_program : shader_program_t) (hue_texture_handles : Fin 4 → Nat)
    (cursor_position : α × α) (gl : gl_context) (evs : List (event α)) :
    iterations_in_range (key_callback s key scancode action mods) ∧
      iterations_in_range
        (run pow (initial_state shader_program hue_texture_handles cursor_position gl) evs) :=
  ⟨key_callback_keeps_range s key scancode action mods h,
   run_keeps_range pow evs _ (initial_state_in_range _ _ _ _)⟩

/-- C1, at a concrete input: from the start state (count 500) the key Up keeps the count in
range, and so do sixty presses of Up after the start. -/
theorem iterations_stay_in_range_witness :
    iterations_in_range (example_state : program_state ℚ) ∧
      (iterations_in_range
          (key_callback (example_state : program_state ℚ) GLFW_KEY_UP 0 GLFW_PRESS 0) ∧
        iterations_in_range
          (run (fun _ _ => (1 : ℚ))
            (initial_state example_shader_program example_handles ((0 : ℚ), (0 : ℚ)) example_gl)
            (List.replicate 60 (event.key GLFW_KEY_UP 0 GLFW_PRESS 0)))) :=
  ⟨by constructor <;> decide,
   iterations_stay_in_range (fun _ _ => (1 : ℚ)) example_state GLFW_KEY_UP 0 GLFW_PRESS 0
     (by constructor <;> decide) example_shader_program example_handles (0, 0) example_gl
     (List.replicate 60 (event.key GLFW_KEY_UP 0 GLFW_PRESS 0))⟩

/-- C3: for every iteration count `n`, Up sets the count to `min (n + 10) 1000`, Down sets it
to `max (n - 10) 2`, and every other key leaves it unchanged. -/
theorem key_callback_steps_of_ten {α : Type} (s : program_state α)
    (key scancode action mods : Int) :
    (key_callback s GLFW_KEY_UP scancode action mods).user_info.iterations =
        min (s.user_info.iterations + 10) 1000 ∧
      (key_callback s GLFW_KEY_DOWN scancode action mods).user_info.iterations =
        max (s.user_info.iterations - 10) 2 ∧
      (key = GLFW_KEY_UP ∨ key = GLFW_KEY_DOWN ∨
        (key_callback s key scancode action mods).user_info.iterations =
          s.user_info.iterations) := by
  refine ⟨?_, ?_, ?_⟩
  · rw [key_callback_iterations]; simp
  · rw [key_callback_iterations]; simp [GLFW_KEY_UP, GLFW_KEY_DOWN]
  · by_cases h1 : key = GLFW_KEY_UP
    · exact Or.inl h1
    · by_cases h2 : key = GLFW_KEY_DOWN
      · exact Or.inr (Or.inl h2)
      · right; right
        rw [key_callback_iterations, if_neg h1, if_neg h2]

/-! ## Texture selection and the action of key events -/

/-- C6: for each of the keys 1 to 4, `key_callback` binds the hue texture with the matching
index (0 to 3) and leaves the whole user info (iterations, position, scale, panning flag,
cursor position, window size, the four texture handles) unchanged; for every key, either the
key is one of 1 to 4 or the bound texture is unchanged. -/
theorem key_callback_selects_texture {α : Type} (s : program_state α) (i : Fin 4)
    (key scancode action mods : Int) :
    (key_callback s (digit_key i) scancode action mods).gl.texture_binding_2d =
        s.user_info.hue_texture_handles i ∧
      (key_callback s (digit_key i) scancode action mods).user_info = s.user_info ∧
      (key = GLFW_KEY_1 ∨ key = GLFW_KEY_2 ∨ key = GLFW_KEY_3 ∨ key = GLFW_KEY_4 ∨
        (key_callback s key scancode action mods).gl.texture_binding_2d =
          s.gl.texture_binding_2d) := by
  refine ⟨?_, ?_, ?_⟩
  · fin_cases i <;> rfl
  · fin_cases i <;> rfl
  · by_cases h1 : key = GLFW_KEY_1
    · exact Or.inl h1
    by_cases h2 : key = GLFW_KEY_2
    · exact Or.inr (Or.inl h2)
    by_cases h3 : key = GLFW_KEY_3
    · exact Or.inr (Or.inr (Or.inl h3))
    by_cases h4 : key = GLFW_KEY_4
    · exact Or.inr (Or.inr (Or.inr (Or.inl h4)))
    right; right; right; right
    unfold key_callback
    split_ifs <;> rfl

/-- C7, as stated, fails: at the start state a call for Up with the action release, which is
not a press, changes the iteration count, from 500 to 510. -/
theorem key_release_changes_iterations :
    GLFW_RELEASE ≠ GLFW_PRESS ∧
      (key_callback (example_state : program_state ℚ) GLFW_KEY_UP 0 GLFW_RELEASE
          0).user_info.iterations ≠ (example_state : program_state ℚ).user_info.iterations ∧
      (example_state : program_state ℚ).user_info.iterations = 500 ∧
      (key_callback (example_state : program_state ℚ) GLFW_KEY_UP 0 GLFW_RELEASE
          0).user_info.iterations = 510 := by
  refine ⟨?_, ?_, ?_, ?_⟩ <;> decide

/-- C7, amended: `key_callback` does not read the action: for every state, every key and every
action (release and repeat among them) a call has the effect of a press on the whole state, so
on the iteration count and on the bound texture; hence one press-and-release of Up raises the
iteration count by 20 when it is at most 980. -/
theorem key_callback_ignores_action {α : Type} (s : program_state α)
    (key scancode action mods : Int) :
    key_callback s key scancode action mods = key_callback s key scancode GLFW_PRESS mods ∧
      (s.user_info.iterations ≤ 980 →
        (key_callback (key_callback s GLFW_KEY_UP scancode GLFW_PRESS mods)
            GLFW_KEY_UP scancode GLFW_RELEASE mods).user_info.iterations =
          s.user_info.iterations + 20) := by
  refine ⟨rfl, fun h => ?_⟩
  rw [key_callback_iterations, key_callback_iterations]
  simp only [if_true]
  omega

/-- C7, amended, at concrete inputs: at the start state a repeat of Up acts as a press, and
press-and-release of Up gives 520; at the upper limit 1000 a release of the key 2 acts as a
press. -/
theorem key_callback_ignores_action_witness :
    (key_callback (example_state : program_state ℚ) GLFW_KEY_UP 0 GLFW_REPEAT 0 =
        key_callback (example_state : program_state ℚ) GLFW_KEY_UP 0 GLFW_PRESS 0) ∧
      (key_callback (key_callback (example_state : program_state ℚ) GLFW_KEY_UP 0 GLFW_PRESS 0)
          GLFW_KEY_UP 0 GLFW_RELEASE 0).user_info.iterations = 520 ∧
      (key_callback (run (fun _ _ => (1 : ℚ)) (example_state : program_state ℚ)
            (List.replicate 60 (event.key GLFW_KEY_UP 0 GLFW_PRESS 0)))
          GLFW_KEY_2 0 GLFW_RELEASE 0 =
        key_callback (run (fun _ _ => (1 : ℚ)) (example_state : program_state ℚ)
            (List.replicate 60 (event.key GLFW_KEY_UP 0 GLFW_PRESS 0)))
          GLFW_KEY_2 0 GLFW_PRESS 0) :=
  ⟨(key_callback_ignores_action example_state GLFW_KEY_UP 0 GLFW_REPEAT 0).1,
   (key_callback_ignores_action example_state GLFW_KEY_UP 0 GLFW_REPEAT 0).2 (by decide),
   (key_callback_ignores_action _ GLFW_KEY_2 0 GLFW_RELEASE 0).1⟩

/-! ## Pan mode -/

/-- A button other than the left one changes nothing. -/
theorem mouse_button_callback_other {α : Type} (s : program_state α)
    (button action mods : Int) (h : button ≠ GLFW_MOUSE_BUTTON_LEFT) :
    mouse_button_callback s button action mods = s := by
  unfold mouse_button_callback
  rw [if_neg h]

/-- The left button sets the panning flag to 1 on a press and to 0 otherwise. -/
theorem mouse_button_callback_left {α : Type} (s : program_state α) (action mods : Int) :
    (mouse_button_callback s GLFW_MOUSE_BUTTON_LEFT action mods).user_info.is_panning =
      if action = GLFW_PRESS then 1 else 0 := by
  unfold mouse_button_callback
  rw [if_pos rfl]

/-- While the left-button events alternate, the panning flag tells whether the left button is
held. -/
theorem run_mouse_buttons_is_panning {α : Type} (pre : List (Int × Int × Int)) :
    ∀ (s : program_state α) (held : Bool) (e : Int × Int × Int)
      (post : List (Int × Int × Int)),
      s.user_info.is_panning = (if held then 1 else 0) →
      left_alternates held (pre ++ e :: post) = true →
      ∃ held' : Bool,
        (run_mouse_buttons s pre).user_info.is_panning = (if held' then 1 else 0) ∧
          left_alternates held' (e :: post) = true := by
  induction pre with
  | nil =>
    intro s held e post hs halt
    exact ⟨held, hs, halt⟩
  | cons a pre ih =>
    intro s held e post hs halt
    obtain ⟨button, action, mods⟩ := a
    simp only [List.cons_append, left_alternates] at halt
    simp only [run_mouse_buttons, List.foldl_cons]
    by_cases hb : button = GLFW_MOUSE_BUTTON_LEFT
    · rw [if_pos hb, Bool.and_eq_true, decide_eq_true_eq] at halt
      subst hb
      refine ih _ (!held) e post ?_ halt.2
      rw [mouse_button_callback_left, halt.1]
      cases held <;> decide
    · rw [if_neg hb] at halt
      rw [mouse_button_callback_other s button action mods hb]
      exact ih s held e post hs halt

/-- C5: start in the initial state (not panning) and take any sequence of mouse-button events
whose left-button events alternate press, release, press, ... . For every event of the
sequence, with `s` the state before it and `s'` the state after it: a left-button event is
either a press met while not panning that turns panning on, or a release met while panning
that turns it off; an event of any other button leaves the whole state unchanged. -/
theorem left_button_toggles_panning {α : Type} [LinearOrderedField α]
    (shader_program : shader_program_t) (hue_texture_handles : Fin 4 → Nat)
    (cursor_position : α × α) (gl : gl_context)
    (evs pre post : List (Int × Int × Int)) (button action mods : Int)
    (halt : left_alternates false evs = true)
    (hsplit : evs = pre ++ (button, action, mods) :: post) :
    (button = GLFW_MOUSE_BUTTON_LEFT →
      (action = GLFW_PRESS ∧
        (run_mouse_buttons
          (initial_state shader_program hue_texture_handles cursor_position gl)
          pre).user_info.is_panning = 0 ∧
        (mouse_button_callback
          (run_mouse_buttons
            (initial_state shader_program hue_texture_handles cursor_position gl) pre)
          button action mods).user_info.is_panning = 1) ∨
      (action = GLFW_RELEASE ∧
        (run_mouse_buttons
          (initial_state shader_program hue_texture_handles cursor_position gl)
          pre).user_info.is_panning = 1 ∧
        (mouse_button_callback
          (run_mouse_buttons
            (initial_state shader_program hue_texture_handles cursor_position gl) pre)
          button action mods).user_info.is_panning = 0)) ∧
    (button ≠ GLFW_MOUSE_BUTTON_LEFT →
      mouse_button_callback
        (run_mouse_buttons
          (initial_state shader_program hue_texture_handles cursor_position gl) pre)
        button action mods =
      run_mouse_buttons
        (initial_state shader_program hue_texture_handles cursor_position gl) pre) := by
  subst hsplit
  obtain ⟨held, hpan, hrest⟩ :=
    run_mouse_buttons_is_panning pre
      (initial_state shader_program hue_texture_handles cursor_position gl) false
      (button, action, mods) post rfl halt
  refine ⟨fun hb => ?_, fun hb => mouse_button_callback_other _ _ _ _ hb⟩
  subst hb
  simp only [left_alternates, if_true, Bool.and_eq_true, decide_eq_true_eq] at hrest
  rw [mouse_button_callback_left, hpan, hrest.1]
  cases held
  · left; simp [GLFW_PRESS]
  · right; simp [GLFW_PRESS, GLFW_RELEASE]

/-- C5, at a concrete input: left press, right press, left release; the third event is a
release met while panning. -/
theorem left_button_toggles_panning_witness :
    left_alternates false [(0, 1, 0), (1, 1, 0), (0, 0, 0)] = true ∧
      (run_mouse_buttons (example_state : program_state ℚ)
          [(0, 1, 0), (1, 1, 0)]).user_info.is_panning = 1 ∧
      (mouse_button_callback
          (run_mouse_buttons (example_state : program_state ℚ) [(0, 1, 0), (1, 1, 0)])
          0 0 0).user_info.is_panning = 0 := by
  have h := left_button_toggles_panning example_shader_program example_handles
    ((800 : ℚ), (300 : ℚ)) example_gl [(0, 1, 0), (1, 1, 0), (0, 0, 0)] [(0, 1, 0), (1, 1, 0)] []
    0 0 0 (by decide) (by decide)
  refine ⟨by decide, ?_⟩
  rcases h.1 rfl with h1 | h1
  · exact absurd h1.1 (by decide)
  · exact h1.2

/-! ## Panning and zooming -/

/-- C4: with `is_panning` non-zero `cursor_pos_callback` sets the position to the clamped
translate, `clamp (position[0] - (x - cursor_position[0]) / scale) (-3) 3` and
`clamp (position[1] + (y - cursor_position[1]) / scale) (-3) 3`; with `is_panning` zero it
leaves the position unchanged; in both cases the cursor position becomes `(x, y)` and scale,
iterations, window size, panning flag (and the other fields and the GL context) are
unchanged. -/
theorem cursor_pos_callback_translates {α : Type} [LinearOrderedField α]
    (s : program_state α) (x y : α) :
    (cursor_pos_callback s x y).user_info.position =
        (if s.user_info.is_panning ≠ 0 then
          (clamp (s.user_info.position.1 -
              (x - s.user_info.cursor_position.1) / s.user_info.scale) (-3) 3,
           clamp (s.user_info.position.2 +
              (y - s.user_info.cursor_position.2) / s.user_info.scale) (-3) 3)
        else s.user_info.position) ∧
      (cursor_pos_callback s x y).user_info.cursor_position = (x, y) ∧
      (cursor_pos_callback s x y).user_info.scale = s.user_info.scale ∧
      (cursor_pos_callback s x y).user_info.iterations = s.user_info.iterations ∧
      (cursor_pos_callback s x y).user_info.window_size = s.user_info.window_size ∧
      (cursor_pos_callback s x y).user_info.is_panning = s.user_info.is_panning ∧
      (cursor_pos_callback s x y).user_info.hue_texture_handles =
        s.user_info.hue_texture_handles ∧
      (cursor_pos_callback s x y).user_info.shader_program = s.user_info.shader_program ∧
      (cursor_pos_callback s x y).gl = s.gl := by
  refine ⟨?_, rfl, rfl, rfl, rfl, rfl, rfl, rfl, rfl⟩
  simp only [cursor_pos_callback, CLAMPED_POSITION_eq_clamp]

/-- The scale after `scroll_callback`. -/
theorem scroll_callback_scale {α : Type} [LinearOrderedField α] (pow : α → α → α)
    (s : program_state α) (xoffset yoffset : α) :
    (scroll_callback pow s xoffset yoffset).user_info.scale =
      clamp (pow 2 (0.25 * yoffset) * s.user_info.scale) 75 100000000 := by
  simp only [scroll_callback, CLAMPED_SCALE_eq_clamp, MOUSE_WHEEL_FACTOR]

/-- The clamp fixes the points of the interval. -/
theorem clamp_of_mem {β : Type} [LinearOrder β] (v lo hi : β) (h1 : lo ≤ v) (h2 : v ≤ hi) :
    clamp v lo hi = v := by
  unfold clamp
  rw [if_neg (not_lt.mpr h1), if_neg (not_lt.mpr h2)]

/-- A lower bound of `v` and `hi` is a lower bound of the clamp. -/
theorem le_clamp {β : Type} [LinearOrder β] (a v lo hi : β) (h1 : a ≤ v) (h2 : a ≤ hi) :
    a ≤ clamp v lo hi := by
  unfold clamp
  split_ifs with h3 h4
  · exact h1.trans h3.le
  · exact h2
  · exact h1

/-- An upper bound of `v` and `lo` is an upper bound of the clamp. -/
theorem clamp_le {β : Type} [LinearOrder β] (a v lo hi : β) (h1 : v ≤ a) (h2 : lo ≤ a) :
    clamp v lo hi ≤ a := by
  unfold clamp
  split_ifs with h3 h4
  · exact h2
  · exact h4.le.trans h1
  · exact h1

/-- C8: over the reals, with `pow` the real power function, `scroll_callback` sets the scale to
`clamp (2 ^ (0.25 * yoffset) * scale) 75 100000000`; for a scale already within
[75, 100000000] a positive `yoffset` does not decrease it, a negative one does not increase it
and `yoffset = 0` leaves it unchanged; iterations, panning flag, cursor position and window
size (and the GL context) are unchanged. -/
theorem scroll_callback_zooms (s : program_state ℝ) (xoffset yoffset : ℝ)
    (hscale : 0 < s.user_info.scale) :
    (scroll_callback Real.rpow s xoffset yoffset).user_info.scale =
        clamp ((2 : ℝ) ^ (0.25 * yoffset) * s.user_info.scale) 75 100000000 ∧
      (75 ≤ s.user_info.scale ∧ s.user_info.scale ≤ 100000000 →
        (0 < yoffset →
          s.user_info.scale ≤ (scroll_callback Real.rpow s xoffset yoffset).user_info.scale) ∧
        (yoffset < 0 →
          (scroll_callback Real.rpow s xoffset yoffset).user_info.scale ≤ s.user_info.scale) ∧
        (yoffset = 0 →
          (scroll_callback Real.rpow s xoffset yoffset).user_info.scale = s.user_info.scale)) ∧
      (scroll_callback Real.rpow s xoffset yoffset).user_info.iterations =
        s.user_info.iterations ∧
      (scroll_callback Real.rpow s xoffset yoffset).user_info.is_panning =
        s.user_info.is_panning ∧
      (scroll_callback Real.rpow s xoffset yoffset).user_info.cursor_position =
        s.user_info.cursor_position ∧
      (scroll_callback Real.rpow s xoffset yoffset).user_info.window_size =
        s.user_info.window_size ∧
      (scroll_callback Real.rpow s xoffset yoffset).gl = s.gl := by
  refine ⟨?_, ?_, rfl, rfl, rfl, rfl, rfl⟩
  · rw [scroll_callback_scale, Real.rpow_eq_pow]
  · rintro ⟨hlo, hhi⟩
    rw [scroll_callback_scale, Real.rpow_eq_pow]
    refine ⟨fun hy => ?_, fun hy => ?_, fun hy => ?_⟩
    · have h1 : (1 : ℝ) ≤ (2 : ℝ) ^ (0.25 * yoffset) :=
        Real.one_le_rpow (by norm_num) (by linarith)
      exact le_clamp _ _ _ _ (le_mul_of_one_le_left hscale.le h1) hhi
    · have h1 : (2 : ℝ) ^ (0.25 * yoffset) ≤ 1 :=
        Real.rpow_le_one_of_one_le_of_nonpos (by norm_num) (by linarith)
      exact clamp_le _ _ _ _ (mul_le_of_le_one_left hscale.le h1) hlo
    · subst hy
      rw [mul_zero, Real.rpow_zero, one_mul]
      exact clamp_of_mem _ _ _ hlo hhi

/-- C8, at a concrete input: at the start state (scale 75) a scroll by 4 doubles the scale. -/
theorem scroll_callback_zooms_witness :
    0 < (example_state : program_state ℝ).user_info.scale ∧
      (scroll_callback Real.rpow (example_state : program_state ℝ) 0 4).user_info.scale =
        150 := by
  have hs : (example_state : program_state ℝ).user_info.scale = 75 := by
    norm_num [example_state, initial_state, initial_user_info, MIN_SCALE]
  have h := scroll_callback_zooms example_state 0 4 (by rw [hs]; norm_num)
  refine ⟨by rw [hs]; norm_num, ?_⟩
  rw [h.1, hs]
  norm_num [clamp]

/-- The position after `scroll_callback`, in terms of the plane point under the cursor before
the call and the new scale. -/
theorem scroll_callback_position {α : Type} [LinearOrderedField α] (pow : α → α → α)
    (s : program_state α) (xoffset yoffset : α) :
    (scroll_callback pow s xoffset yoffset).user_info.position =
      (clamp ((plane_point_under_cursor s.user_info).1 -
          (s.user_info.cursor_position.1 - 0.5 * (s.user_info.window_size.1 : α)) /
            (scroll_callback pow s xoffset yoffset).user_info.scale) (-3) 3,
       clamp ((plane_point_under_cursor s.user_info).2 +
          (s.user_info.cursor_position.2 - 0.5 * (s.user_info.window_size.2 : α)) /
            (scroll_callback pow s xoffset yoffset).user_info.scale) (-3) 3) := by
  simp only [scroll_callback, plane_point_under_cursor, CLAMPED_POSITION_eq_clamp]

/-- The drag of the example ends at position (3, 0), all other fields as at the start. -/
theorem example_panned_state_user_info {α : Type} [LinearOrderedField α] (pow : α → α → α) :
    (example_panned_state pow).user_info =
      { initial_user_info example_shader_program example_handles ((800 : α), (300 : α)) with
        position := (3, 0) } := by
  simp only [example_panned_state, example_state, initial_state, initial_user_info, run,
    List.foldl_cons, List.foldl_nil, step, mouse_button_callback, cursor_pos_callback,
    CLAMPED_POSITION_eq_clamp, clamp, GLFW_MOUSE_BUTTON_LEFT, GLFW_PRESS, GLFW_RELEASE,
    MIN_SCALE]
  norm_num

/-- C2, as stated, fails: in the state reached from the start by dragging the view until the
position is (3, 0), with the cursor at (800, 300) in the 800 x 600 window and scale 75, a
scroll by 4 doubles the scale and the clamp holds the position at 3, so the plane point
under the cursor moves from (25/3, 0) to (17/3, 0). -/
theorem scroll_moves_point_at_position_limit :
    0 < (example_panned_state Real.rpow).user_info.scale ∧
      plane_point_under_cursor (example_panned_state Real.rpow).user_info = (25 / 3, 0) ∧
      plane_point_under_cursor
          (scroll_callback Real.rpow (example_panned_state Real.rpow) 0 4).user_info =
        (17 / 3, 0) ∧
      plane_point_under_cursor
          (scroll_callback Real.rpow (example_panned_state Real.rpow) 0 4).user_info ≠
        plane_point_under_cursor (example_panned_state Real.rpow).user_info := by
  have hscale : (scroll_callback Real.rpow (example_panned_state Real.rpow) 0 4).user_info.scale
      = 150 := by
    rw [scroll_callback_scale, example_panned_state_user_info]
    norm_num [initial_user_info, MIN_SCALE, clamp]
  have hbefore :
      plane_point_under_cursor (example_panned_state Real.rpow).user_info = (25 / 3, 0) := by
    rw [example_panned_state_user_info]
    norm_num [plane_point_under_cursor, initial_user_info, MIN_SCALE]
  have hpos : (scroll_callback Real.rpow (example_panned_state Real.rpow) 0 4).user_info.position
      = (3, 0) := by
    rw [scroll_callback_position, hscale, hbefore, example_panned_state_user_info]
    norm_num [initial_user_info, clamp]
  have hafter :
      plane_point_under_cursor
          (scroll_callback Real.rpow (example_panned_state Real.rpow) 0 4).user_info =
        (17 / 3, 0) := by
    have hc : (scroll_callback Real.rpow (example_panned_state Real.rpow) 0 4).user_info.cursor_position
        = (example_panned_state Real.rpow).user_info.cursor_position := rfl
    have hw : (scroll_callback Real.rpow (example_panned_state Real.rpow) 0 4).user_info.window_size
        = (example_panned_state Real.rpow).user_info.window_size := rfl
    unfold plane_point_under_cursor
    rw [hpos, hscale, hc, hw, example_panned_state_user_info]
    norm_num [initial_user_info]
  refine ⟨?_, hbefore, hafter, ?_⟩
  · rw [example_panned_state_user_info]
    norm_num [initial_user_info, MIN_SCALE]
  · rw [hafter, hbefore]
    norm_num

/-- C2, amended: over the reals, with `pow` the real power function, for every state with
scale > 0 and every `yoffset`: if the clamp to [-3, 3] does not act on the recomputed position,
that is, both `center_x - delta_x / scale'` and `center_y + delta_y / scale'` lie in [-3, 3]
(with `center` the plane point under the cursor before the call and `scale'` the new scale),
then the plane point under the cursor after `scroll_callback` equals the one before. -/
theorem scroll_keeps_point_unless_clamped (s : program_state ℝ) (xoffset yoffset : ℝ)
    (hscale : 0 < s.user_info.scale)
    (hx : -3 ≤ (plane_point_under_cursor s.user_info).1 -
          (s.user_info.cursor_position.1 - 0.5 * (s.user_info.window_size.1 : ℝ)) /
            (scroll_callback Real.rpow s xoffset yoffset).user_info.scale ∧
        (plane_point_under_cursor s.user_info).1 -
          (s.user_info.cursor_position.1 - 0.5 * (s.user_info.window_size.1 : ℝ)) /
            (scroll_callback Real.rpow s xoffset yoffset).user_info.scale ≤ 3)
    (hy : -3 ≤ (plane_point_under_cursor s.user_info).2 +
          (s.user_info.cursor_position.2 - 0.5 * (s.user_info.window_size.2 : ℝ)) /
            (scroll_callback Real.rpow s xoffset yoffset).user_info.scale ∧
        (plane_point_under_cursor s.user_info).2 +
          (s.user_info.cursor_position.2 - 0.5 * (s.user_info.window_size.2 : ℝ)) /
            (scroll_callback Real.rpow s xoffset yoffset).user_info.scale ≤ 3) :
    plane_point_under_cursor (scroll_callback Real.rpow s xoffset yoffset).user_info =
      plane_point_under_cursor s.user_info := by
  have hc : (scroll_callback Real.rpow s xoffset yoffset).user_info.cursor_position
      = s.user_info.cursor_position := rfl
  have hw : (scroll_callback Real.rpow s xoffset yoffset).user_info.window_size
      = s.user_info.window_size := rfl
  have hp := scroll_callback_position Real.rpow s xoffset yoffset
  rw [clamp_of_mem _ _ _ hx.1 hx.2, clamp_of_mem _ _ _ hy.1 hy.2] at hp
  apply Prod.ext
  · show (scroll_callback Real.rpow s xoffset yoffset).user_info.position.1 +
        ((scroll_callback Real.rpow s xoffset yoffset).user_info.cursor_position.1 -
          0.5 * ((scroll_callback Real.rpow s xoffset yoffset).user_info.window_size.1 : ℝ)) /
          (scroll_callback Real.rpow s xoffset yoffset).user_info.scale = _
    rw [hp, hc, hw]
    ring
  · show (scroll_callback Real.rpow s xoffset yoffset).user_info.position.2 -
        ((scroll_callback Real.rpow s xoffset yoffset).user_info.cursor_position.2 -
          0.5 * ((scroll_callback Real.rpow s xoffset yoffset).user_info.window_size.2 : ℝ)) /
          (scroll_callback Real.rpow s xoffset yoffset).user_info.scale = _
    rw [hp, hc, hw]
    ring

/-- C2, amended, at a concrete input: at the start state (position (0, 0), cursor at
(800, 300), scale 75) a scroll by 4 keeps the plane point (16/3, 0) under the cursor. -/
theorem scroll_keeps_point_unless_clamped_witness :
    0 < (example_state : program_state ℝ).user_info.scale ∧
      plane_point_under_cursor
          (scroll_callback Real.rpow (example_state : program_state ℝ) 0 4).user_info =
        plane_point_under_cursor (example_state : program_state ℝ).user_info := by
  have hs : (scroll_callback Real.rpow (example_state : program_state ℝ) 0 4).user_info.scale
      = 150 := by
    rw [scroll_callback_scale]
    norm_num [example_state, initial_state, initial_user_info, MIN_SCALE, clamp]
  have h0 : (0 : ℝ) < (example_state : program_state ℝ).user_info.scale := by
    norm_num [example_state, initial_state, initial_user_info, MIN_SCALE]
  refine ⟨h0, scroll_keeps_point_unless_clamped example_state 0 4 h0 ?_ ?_⟩
  · rw [hs]
    norm_num [plane_point_under_cursor, example_state, initial_state, initial_user_info,
      MIN_SCALE]
  · rw [hs]
    norm_num [plane_point_under_cursor, example_state, initial_state, initial_user_info,
      MIN_SCALE]

/-! ## Setup -/

/-- `read_all_bytes` exits with `EXIT_FAILURE` when one of its tests fires and returns the
buffer length otherwise. -/
theorem read_all_bytes_eq (f : file_outcome) (insert_trailing_zero : Int) :
    read_all_bytes f insert_trailing_zero =
      if file_read_exits f then .error EXIT_FAILURE
      else .ok (if insert_trailing_zero ≠ 0 then long_to_int f.ftell_result + 1
        else long_to_int f.ftell_result) := by
  unfold read_all_bytes file_read_exits
  by_cases h1 : f.fopen_ok = false
  · simp [h1]
  by_cases h2 : f.fseek_result = 0
  · by_cases h3 : f.malloc_ok = false
    · simp [h1, h2, h3]
    by_cases h4 : f.fread_result = long_to_int f.ftell_result
    · simp [h1, h2, h3, h4]
    · simp [h1, h2, h3, h4]
  · simp [h1, h2]

/-- Each failure of reading a file fires a test of `read_all_bytes`. -/
theorem file_read_exits_of_fails (f : file_outcome) (h : file_read_fails f) :
    file_read_exits f := by
  rcases h with h | h | h | h
  · exact Or.inl h
  · exact Or.inr (Or.inl h)
  · exact Or.inr (Or.inr (Or.inl h))
  · exact Or.inr (Or.inr (Or.inr (ne_of_lt h)))

/-- When `fread` returns at most the file length, a test of `read_all_bytes` fires only on a
failure of reading the file. -/
theorem file_read_fails_of_exits (f : file_outcome)
    (hcount : f.fread_result ≤ long_to_int f.ftell_result)
    (h : file_read_exits f) : file_read_fails f := by
  rcases h with h | h | h | h
  · exact Or.inl h
  · exact Or.inr (Or.inl h)
  · exact Or.inr (Or.inr (Or.inl h))
  · exact Or.inr (Or.inr (Or.inr (lt_of_le_of_ne hcount h)))

/-- `create_shader` exits with `EXIT_FAILURE` when reading fails or the compile status is not
true, and returns the shader handle otherwise. -/
theorem create_shader_eq (f : file_outcome) (shader_handle : Nat) (compilation_success : Int) :
    create_shader f shader_handle compilation_success =
      if file_read_exits f ∨ compilation_success ≠ GL_TRUE then .error EXIT_FAILURE
      else .ok shader_handle := by
  unfold create_shader
  rw [read_all_bytes_eq]
  by_cases h1 : file_read_exits f
  · simp [h1]
  · by_cases h2 : compilation_success = GL_TRUE <;> simp [h1, h2]

/-- `init_shader_program` exits with `EXIT_FAILURE` when one of its tests fires and returns
the shader program otherwise. -/
theorem init_shader_program_eq (o : shader_setup_outcome) :
    init_shader_program o =
      if (file_read_exits o.vertex_file ∨ o.vertex_compilation_success ≠ GL_TRUE) ∨
          (file_read_exits o.fragment_file ∨ o.fragment_compilation_success ≠ GL_TRUE) ∨
          o.linking_success ≠ GL_TRUE ∨ o.gaussian_position_location < 0 ∨
          o.gaussian_half_frame_location < 0 ∨ o.iterations_location < 0 ∨
          o.hue_texture_location < 0 then
        .error EXIT_FAILURE
      else
        .ok { handle := o.program_handle
              gaussian_position_uniform := o.gaussian_position_location
              gaussian_half_frame_uniform := o.gaussian_half_frame_location
              iterations_uniform := o.iterations_location } := by
  unfold init_shader_program
  rw [create_shader_eq, create_shader_eq]
  split_ifs <;> first | rfl | (exfalso; tauto)

/-- When `init_shader_program` exits, `main` does not reach the render loop. -/
theorem main_until_render_loop_error {α : Type} [LinearOrderedField α] (o : setup_outcome)
    (cursor_position : α × α) (gl : gl_context)
    (h : init_shader_program o.shaders = .error EXIT_FAILURE) :
    main_until_render_loop o cursor_position gl = .error EXIT_FAILURE := by
  unfold main_until_render_loop
  split_ifs
  · rfl
  · rfl
  · simp only [h]

/-- The narrowing keeps every length up to 2147483647. -/
theorem long_to_int_of_le (L : Nat) (h : L ≤ 2147483647) : long_to_int (L : Int) = (L : Int) := by
  unfold long_to_int
  omega

/-- C9, as stated, fails: for a texture file of 2 ^ 32 + 8 = 4294967304 bytes the narrowing to
`int` leaves 8 in `file_length`, so `read_all_bytes` without trailing zero returns 8, not the
length, and `create_hue_texture` uploads an image of width 2, not 1073741826. -/
theorem huge_texture_file_is_truncated :
    example_huge_file.ftell_result = 4294967304 ∧
      read_all_bytes example_huge_file 0 = .ok 8 ∧
      read_all_bytes example_huge_file 0 ≠ .ok 4294967304 ∧
      (create_hue_texture example_huge_file 7 example_gl).toOption.map
          (fun r => r.2.tex_image_2d 7) = some (some (2, 1)) ∧
      ((4294967304 / 4 : Nat) : Int) = 1073741826 := by
  have h : read_all_bytes example_huge_file 0 = .ok 8 := by
    rw [read_all_bytes_eq, if_neg (by decide)]
    rfl
  refine ⟨rfl, h, ?_, ?_, by decide⟩
  · rw [h]
    intro hc
    exact absurd (Except.ok.inj hc) (by decide)
  · simp only [create_hue_texture, h, glTexImage2D, bind_texture, Function.update_same,
      Except.toOption, Option.map]
    rfl

/-- C9, amended: for a texture file of length `L` bytes with `L ≤ 2147483647`, the largest
`int`, on which the library calls succeed (the file opens, the seek succeeds, `ftell` reports
`L`, the buffer is allocated, `fread` delivers `L` bytes), `read_all_bytes` without trailing
zero returns exactly `L`, and `create_hue_texture` returns the generated texture name after
giving that texture an image of width `L / 4` (rounded down) and height 1; the `4 * (L / 4)`
bytes of the pixels are all of the file but its last `L % 4` bytes. -/
theorem hue_texture_pixel_count (f : file_outcome) (L : Nat) (texture_handle : Nat)
    (gl : gl_context) (hL : L ≤ 2147483647) (hopen : f.fopen_ok = true)
    (hseek : f.fseek_result = 0) (htell : f.ftell_result = (L : Int))
    (hmalloc : f.malloc_ok = true) (hread : f.fread_result = (L : Int)) :
    read_all_bytes f 0 = .ok (L : Int) ∧
      (∃ gl', create_hue_texture f texture_handle gl = .ok (texture_handle, gl') ∧
        gl'.tex_image_2d texture_handle = some (((L / 4 : Nat) : Int), 1)) ∧
      4 * (L / 4) = L - L % 4 := by
  have hlen : long_to_int f.ftell_result = (L : Int) := by
    rw [htell, long_to_int_of_le L hL]
  have hno : ¬ file_read_exits f := by
    unfold file_read_exits
    simp [hopen, hseek, hmalloc, hread, hlen]
  have hr : read_all_bytes f 0 = .ok (L : Int) := by
    rw [read_all_bytes_eq, if_neg hno, hlen]
    simp
  refine ⟨hr, ⟨glTexImage2D (bind_texture gl texture_handle) (Int.tdiv (L : Int) 4) 1, ?_, ?_⟩,
    by omega⟩
  · unfold create_hue_texture
    rw [hr]
  · have hdiv : Int.tdiv (L : Int) 4 = ((L / 4 : Nat) : Int) := (Int.ofNat_tdiv L 4).symm
    simp only [glTexImage2D, bind_texture, Function.update_same, hdiv]

/-- C9, amended, at a concrete input: a file of 10 bytes gives a texture 2 pixels wide and 1
high. -/
theorem hue_texture_pixel_count_witness :
    (10 : Nat) ≤ 2147483647 ∧ read_all_bytes example_file 0 = .ok 10 ∧
      (∃ gl', create_hue_texture example_file 7 example_gl = .ok (7, gl') ∧
        gl'.tex_image_2d 7 = some (2, 1)) :=
  have h := hue_texture_pixel_count example_file 10 7 example_gl (by decide) rfl rfl rfl rfl
    rfl
  ⟨by decide, h.1, h.2.1⟩

/-- C11: over the reals, with `pow` the real power function, take a state with scale > 0 and
any `yoffset`, and write `s'` for `clamp (2 ^ (0.25 * yoffset) * scale) 75 100000000` and
`(dx, dy)` for `cursor_position - 0.5 * window_size`. If `position[0] + dx / scale - dx / s'`
and `position[1] - dy / scale + dy / s'` both lie in [-3, 3], then after `scroll_callback` the
scale is `s'` (clamped or not), `position'[0] + dx / s' = position[0] + dx / scale` and
`position'[1] - dy / s' = position[1] - dy / scale`. -/
theorem scroll_fixes_point_when_position_unclamped (s : program_state ℝ)
    (xoffset yoffset s' dx dy : ℝ) (hscale : 0 < s.user_info.scale)
    (hs' : s' = clamp ((2 : ℝ) ^ (0.25 * yoffset) * s.user_info.scale) 75 100000000)
    (hdx : dx = s.user_info.cursor_position.1 - 0.5 * (s.user_info.window_size.1 : ℝ))
    (hdy : dy = s.user_info.cursor_position.2 - 0.5 * (s.user_info.window_size.2 : ℝ))
    (hx : -3 ≤ s.user_info.position.1 + dx / s.user_info.scale - dx / s' ∧
      s.user_info.position.1 + dx / s.user_info.scale - dx / s' ≤ 3)
    (hy : -3 ≤ s.user_info.position.2 - dy / s.user_info.scale + dy / s' ∧
      s.user_info.position.2 - dy / s.user_info.scale + dy / s' ≤ 3) :
    (scroll_callback Real.rpow s xoffset yoffset).user_info.scale = s' ∧
      (scroll_callback Real.rpow s xoffset yoffset).user_info.position.1 + dx / s' =
        s.user_info.position.1 + dx / s.user_info.scale ∧
      (scroll_callback Real.rpow s xoffset yoffset).user_info.position.2 - dy / s' =
        s.user_info.position.2 - dy / s.user_info.scale := by
  have hsc : (scroll_callback Real.rpow s xoffset yoffset).user_info.scale = s' := by
    rw [scroll_callback_scale, Real.rpow_eq_pow, hs']
  have hp := scroll_callback_position Real.rpow s xoffset yoffset
  rw [hsc] at hp
  simp only [plane_point_under_cursor] at hp
  rw [← hdx, ← hdy, clamp_of_mem _ _ _ hx.1 hx.2, clamp_of_mem _ _ _ hy.1 hy.2] at hp
  refine ⟨hsc, ?_, ?_⟩
  · rw [hp]; ring
  · rw [hp]; ring

/-- C11, at a concrete input where the scale itself is clamped: at the start state (scale 75,
position (0, 0), cursor (800, 300) in the 800 x 600 window) a scroll by -4 asks for scale 37.5,
the scale stays 75, and the position stays (0, 0). -/
theorem scroll_fixes_point_when_position_unclamped_witness :
    (scroll_callback Real.rpow (example_state : program_state ℝ) 0 (-4)).user_info.scale = 75 ∧
      (scroll_callback Real.rpow (example_state : program_state ℝ) 0
        (-4)).user_info.position.1 = 0 ∧
      (scroll_callback Real.rpow (example_state : program_state ℝ) 0
        (-4)).user_info.position.2 = 0 := by
  have hu : (example_state : program_state ℝ).user_info =
      initial_user_info example_shader_program example_handles ((800 : ℝ), (300 : ℝ)) := rfl
  have hsc : (example_state : program_state ℝ).user_info.scale = 75 := by
    rw [hu]; norm_num [initial_user_info, MIN_SCALE]
  have hp1 : (example_state : program_state ℝ).user_info.position.1 = 0 := rfl
  have hp2 : (example_state : program_state ℝ).user_info.position.2 = 0 := rfl
  have h := scroll_fixes_point_when_position_unclamped (example_state : program_state ℝ)
    0 (-4) 75 400 0
    (by rw [hsc]; norm_num)
    (by rw [hsc]; norm_num [clamp, Real.rpow_neg_one])
    (by rw [hu]; norm_num [initial_user_info])
    (by rw [hu]; norm_num [initial_user_info])
    (by rw [hp1, hsc]; norm_num)
    (by rw [hp2, hsc]; norm_num)
  obtain ⟨h1, h2, h3⟩ := h
  rw [hp1, hsc] at h2
  rw [hp2, hsc] at h3
  refine ⟨h1, by linarith, by linarith⟩

/-! ## The limits of position and scale -/

/-- The clamp lands in the interval. -/
theorem clamp_mem {β : Type} [LinearOrder β] (v lo hi : β) (h : lo ≤ hi) :
    lo ≤ clamp v lo hi ∧ clamp v lo hi ≤ hi := by
  unfold clamp
  split_ifs with h1 h2
  · exact ⟨le_refl _, h⟩
  · exact ⟨h, le_refl _⟩
  · exact ⟨not_lt.mp h1, not_lt.mp h2⟩

/-- The initial state (scale 75, position (0, 0)) is within the limits. -/
theorem initial_state_in_limits {α : Type} [LinearOrderedField α]
    (shader_program : shader_program_t) (hue_texture_handles : Fin 4 → Nat)
    (cursor_position : α × α) (gl : gl_context) :
    view_in_limits (initial_state shader_program hue_texture_handles cursor_position gl) := by
  simp only [view_in_limits, initial_state, initial_user_info, MIN_SCALE]
  norm_num

/-- `key_callback` writes neither position nor scale. -/
theorem key_callback_keeps_limits {α : Type} [LinearOrderedField α] (s : program_state α)
    (key scancode action mods : Int) (h : view_in_limits s) :
    view_in_limits (key_callback s key scancode action mods) := by
  unfold key_callback
  split_ifs <;> exact h

/-- `mouse_button_callback` writes neither position nor scale. -/
theorem mouse_button_callback_keeps_limits {α : Type} [LinearOrderedField α]
    (s : program_state α) (button action mods : Int) (h : view_in_limits s) :
    view_in_limits (mouse_button_callback s button action mods) := by
  unfold mouse_button_callback
  split_ifs <;> exact h

/-- `cursor_pos_callback` keeps the scale and either keeps the position or clamps it. -/
theorem cursor_pos_callback_keeps_limits {α : Type} [LinearOrderedField α]
    (s : program_state α) (x y : α) (h : view_in_limits s) :
    view_in_limits (cursor_pos_callback s x y) := by
  obtain ⟨hs, hp1, hp2⟩ := h
  refine ⟨hs, ?_⟩
  show (-3 ≤ (cursor_pos_callback s x y).user_info.position.1 ∧ _) ∧
    (-3 ≤ (cursor_pos_callback s x y).user_info.position.2 ∧ _)
  simp only [cursor_pos_callback, CLAMPED_POSITION_eq_clamp]
  split_ifs
  · exact ⟨clamp_mem _ _ _ (by norm_num), clamp_mem _ _ _ (by norm_num)⟩
  · exact ⟨hp1, hp2⟩

/-- `scroll_callback` clamps the scale and both coordinates of the position, whatever `pow`
returns. -/
theorem scroll_callback_in_limits {α : Type} [LinearOrderedField α] (pow : α → α → α)
    (s : program_state α) (x y : α) : view_in_limits (scroll_callback pow s x y) := by
  unfold view_in_limits
  rw [scroll_callback_scale, scroll_callback_position]
  exact ⟨clamp_mem _ _ _ (by norm_num), clamp_mem _ _ _ (by norm_num),
    clamp_mem _ _ _ (by norm_num)⟩

/-- Every callback preserves the limits. -/
theorem step_keeps_limits {α : Type} [LinearOrderedField α] (pow : α → α → α)
    (s : program_state α) (e : event α) (h : view_in_limits s) :
    view_in_limits (step pow s e) := by
  cases e with
  | framebuffer_size w h' => exact h
  | window_size w h' => exact h
  | key k sc a m => exact key_callback_keeps_limits s k sc a m h
  | mouse_button b a m => exact mouse_button_callback_keeps_limits s b a m h
  | cursor_pos x y => exact cursor_pos_callback_keeps_limits s x y h
  | scroll x y => exact scroll_callback_in_limits pow s x y

/-- Every sequence of callbacks preserves the limits. -/
theorem run_keeps_limits {α : Type} [LinearOrderedField α] (pow : α → α → α)
    (evs : List (event α)) (s : program_state α) (h : view_in_limits s) :
    view_in_limits (run pow s evs) := by
  induction evs generalizing s with
  | nil => exact h
  | cons e evs ih => exact ih _ (step_keeps_limits pow s e h)

/-- Within the limits the scale is not zero. -/
theorem scale_ne_zero_of_in_limits {α : Type} [LinearOrderedField α] (s : program_state α)
    (h : view_in_limits s) : s.user_info.scale ≠ 0 := by
  have h75 : (0 : α) < 75 := by norm_num
  exact ne_of_gt (lt_of_lt_of_le h75 h.1.1)

/-- C12: the limits `75 ≤ scale ≤ 100000000`, `-3 ≤ position[0] ≤ 3`, `-3 ≤ position[1] ≤ 3`
hold in the initial state and are preserved by every callback (key, mouse button, cursor
position, scroll, window size, framebuffer size) for all arguments, so they hold in every state
`r` reached from the initial state. There the scale is not zero, and neither is the new scale
that `scroll_callback` divides by; these are the divisors of all divisions in
`cursor_pos_callback`, `scroll_callback` and `render_frame`, so the half frame of
`render_frame` times the scale is half the window size. -/
theorem view_stays_in_limits {α : Type} [LinearOrderedField α] (pow : α → α → α)
    (s : program_state α) (h : view_in_limits s)
    (key scancode action mods button width height : Int) (x y : α)
    (shader_program : shader_program_t) (hue_texture_handles : Fin 4 → Nat)
    (cursor_position : α × α) (gl : gl_context) (evs : List (event α))
    (r : program_state α)
    (hr : r = run pow (initial_state shader_program hue_texture_handles cursor_position gl)
      evs) :
    view_in_limits (initial_state shader_program hue_texture_handles cursor_position gl) ∧
      (view_in_limits (key_callback s key scancode action mods) ∧
        view_in_limits (mouse_button_callback s button action mods) ∧
        view_in_limits (cursor_pos_callback s x y) ∧
        view_in_limits (scroll_callback pow s x y) ∧
        view_in_limits (window_size_callback s width height)) ∧
      view_in_limits r ∧
      r.user_info.scale ≠ 0 ∧
      (scroll_callback pow r x y).user_info.scale ≠ 0 ∧
      (render_frame r.user_info).gaussian_half_frame.1 * r.user_info.scale =
        0.5 * (r.user_info.window_size.1 : α) ∧
      (render_frame r.user_info).gaussian_half_frame.2 * r.user_info.scale =
        0.5 * (r.user_info.window_size.2 : α) := by
  have hlim : view_in_limits r := by
    rw [hr]
    exact run_keeps_limits pow evs _ (initial_state_in_limits _ _ _ _)
  have hne : r.user_info.scale ≠ 0 := scale_ne_zero_of_in_limits r hlim
  refine ⟨initial_state_in_limits _ _ _ _,
    ⟨key_callback_keeps_limits s key scancode action mods h,
      mouse_button_callback_keeps_limits s button action mods h,
      cursor_pos_callback_keeps_limits s x y h, scroll_callback_in_limits pow s x y, h⟩,
    hlim, hne,
    scale_ne_zero_of_in_limits _ (scroll_callback_in_limits pow r x y), ?_, ?_⟩
  · exact div_mul_cancel₀ _ hne
  · exact div_mul_cancel₀ _ hne

/-- C12, at a concrete input: the panned example state (position (3, 0), scale 75) is reached
from the start by four events; a scroll by 4 and a cursor move keep it within the limits, and
its half frame is (400 / 75, 300 / 75). -/
theorem view_stays_in_limits_witness :
    view_in_limits (example_state : program_state ℚ) ∧
      view_in_limits (scroll_callback (fun _ _ => (2 : ℚ)) (example_state : program_state ℚ)
        0 4) ∧
      view_in_limits (example_panned_state (fun _ _ => (2 : ℚ))) ∧
      (example_panned_state (fun _ _ => (2 : ℚ))).user_info.scale ≠ 0 ∧
      (render_frame (example_panned_state (fun _ _ => (2 : ℚ))).user_info).gaussian_half_frame.1
        * (example_panned_state (fun _ _ => (2 : ℚ))).user_info.scale = 0.5 * 800 := by
  have h := view_stays_in_limits (fun _ _ => (2 : ℚ)) (example_state : program_state ℚ)
    (initial_state_in_limits _ _ _ _) GLFW_KEY_UP 0 GLFW_PRESS 0 GLFW_MOUSE_BUTTON_LEFT 640 480
    0 4 example_shader_program example_handles ((800 : ℚ), (300 : ℚ)) example_gl
    [.mouse_button GLFW_MOUSE_BUTTON_LEFT GLFW_PRESS 0, .cursor_pos 575 300,
     .mouse_button GLFW_MOUSE_BUTTON_LEFT GLFW_RELEASE 0, .cursor_pos 800 300]
    (example_panned_state (fun _ _ => (2 : ℚ))) rfl
  have hw : ((example_panned_state (fun _ _ => (2 : ℚ))).user_info.window_size.1 : ℚ) = 800 := by
    rw [example_panned_state_user_info]
    norm_num [initial_user_info]
  exact ⟨h.1, h.2.1.2.2.2.1, h.2.2.1, h.2.2.2.1, by rw [h.2.2.2.2.2.1, hw]⟩

/-- The position after `cursor_pos_callback` while panning. -/
theorem cursor_pos_callback_position_panning {α : Type} [LinearOrderedField α]
    (s : program_state α) (x y : α) (hpan : s.user_info.is_panning ≠ 0) :
    (cursor_pos_callback s x y).user_info.position =
      (clamp (s.user_info.position.1 -
          (x - s.user_info.cursor_position.1) / s.user_info.scale) (-3) 3,
       clamp (s.user_info.position.2 +
          (y - s.user_info.cursor_position.2) / s.user_info.scale) (-3) 3) := by
  simp only [cursor_pos_callback, CLAMPED_POSITION_eq_clamp, if_pos hpan]

/-- C13: for every state with `is_panning` non-zero and scale > 0 and every new cursor
position `(x, y)`, over any ordered field and so over the reals: if the clamp to [-3, 3]
changes neither coordinate of the new position, then the plane point under the new cursor
after `cursor_pos_callback`, `(position'[0] + (x - 0.5 * w) / scale,
position'[1] - (y - 0.5 * h) / scale)`, equals the plane point that was under the old cursor
before the call, `(position[0] + (cursor_position[0] - 0.5 * w) / scale,
position[1] - (cursor_position[1] - 0.5 * h) / scale)`. -/
theorem panning_drags_plane_point {α : Type} [LinearOrderedField α] (s : program_state α)
    (x y : α) (hpan : s.user_info.is_panning ≠ 0) (hscale : 0 < s.user_info.scale)
    (hx : clamp (s.user_info.position.1 -
        (x - s.user_info.cursor_position.1) / s.user_info.scale) (-3) 3 =
      s.user_info.position.1 - (x - s.user_info.cursor_position.1) / s.user_info.scale)
    (hy : clamp (s.user_info.position.2 +
        (y - s.user_info.cursor_position.2) / s.user_info.scale) (-3) 3 =
      s.user_info.position.2 + (y - s.user_info.cursor_position.2) / s.user_info.scale) :
    ((cursor_pos_callback s x y).user_info.position.1 +
          (x - 0.5 * (s.user_info.window_size.1 : α)) / s.user_info.scale,
        (cursor_pos_callback s x y).user_info.position.2 -
          (y - 0.5 * (s.user_info.window_size.2 : α)) / s.user_info.scale) =
      (s.user_info.position.1 +
          (s.user_info.cursor_position.1 - 0.5 * (s.user_info.window_size.1 : α)) /
            s.user_info.scale,
        s.user_info.position.2 -
          (s.user_info.cursor_position.2 - 0.5 * (s.user_info.window_size.2 : α)) /
            s.user_info.scale) ∧
      plane_point_under_cursor (cursor_pos_callback s x y).user_info =
        plane_point_under_cursor s.user_info := by
  have hp := cursor_pos_callback_position_panning s x y hpan
  rw [hx, hy] at hp
  have hgoal : ((cursor_pos_callback s x y).user_info.position.1 +
          (x - 0.5 * (s.user_info.window_size.1 : α)) / s.user_info.scale,
        (cursor_pos_callback s x y).user_info.position.2 -
          (y - 0.5 * (s.user_info.window_size.2 : α)) / s.user_info.scale) =
      (s.user_info.position.1 +
          (s.user_info.cursor_position.1 - 0.5 * (s.user_info.window_size.1 : α)) /
            s.user_info.scale,
        s.user_info.position.2 -
          (s.user_info.cursor_position.2 - 0.5 * (s.user_info.window_size.2 : α)) /
            s.user_info.scale) := by
    rw [hp]
    apply Prod.ext
    · show _ - _ + _ = _
      ring
    · show _ + _ - _ = _
      ring
  exact ⟨hgoal, hgoal⟩

/-- C13, at a concrete input: with the left button pressed at the start state (cursor at
(800, 300), scale 75), moving the cursor to (700, 300) moves the position to (4/3, 0) and the
plane point (16/3, 0) stays under the cursor. -/
theorem panning_drags_plane_point_witness :
    (mouse_button_callback (example_state : program_state ℚ) GLFW_MOUSE_BUTTON_LEFT GLFW_PRESS
        0).user_info.is_panning ≠ 0 ∧
      (cursor_pos_callback
        (mouse_button_callback (example_state : program_state ℚ) GLFW_MOUSE_BUTTON_LEFT
          GLFW_PRESS 0) 700 300).user_info.position = (4 / 3, 0) ∧
      plane_point_under_cursor
          (cursor_pos_callback
            (mouse_button_callback (example_state : program_state ℚ) GLFW_MOUSE_BUTTON_LEFT
              GLFW_PRESS 0) 700 300).user_info =
        plane_point_under_cursor
          (mouse_button_callback (example_state : program_state ℚ) GLFW_MOUSE_BUTTON_LEFT
            GLFW_PRESS 0).user_info := by
  have hu : (mouse_button_callback (example_state : program_state ℚ) GLFW_MOUSE_BUTTON_LEFT
      GLFW_PRESS 0).user_info =
      { initial_user_info example_shader_program example_handles ((800 : ℚ), (300 : ℚ)) with
        is_panning := 1 } := rfl
  have hpan : (mouse_button_callback (example_state : program_state ℚ) GLFW_MOUSE_BUTTON_LEFT
      GLFW_PRESS 0).user_info.is_panning ≠ 0 := by
    rw [hu]; decide
  have hpos : (cursor_pos_callback
      (mouse_button_callback (example_state : program_state ℚ) GLFW_MOUSE_BUTTON_LEFT
        GLFW_PRESS 0) 700 300).user_info.position = (4 / 3, 0) := by
    rw [cursor_pos_callback_position_panning _ _ _ hpan, hu]
    norm_num [initial_user_info, MIN_SCALE, clamp]
  exact ⟨hpan, hpos,
    (panning_drags_plane_point _ 700 300 hpan
      (by rw [hu]; norm_num [initial_user_info, MIN_SCALE])
      (by rw [hu]; norm_num [initial_user_info, MIN_SCALE, clamp])
      (by rw [hu]; norm_num [initial_user_info, MIN_SCALE, clamp])).2⟩

end AlmondBread
